import Mathlib

/-!
Verification of the filmsearch front-end (filmsearch-frontend/src).

Shallow embedding conventions:
- Optional TypeScript fields (`title_english?`, `poster_url?`, `avg_rating?`,
  `movies_count?`, ...) become `Option` fields; JavaScript truthiness on such a
  field is modelled explicitly (`none` and the empty string / zero are falsy).
- A parsed `Date` value is modelled by its epoch timestamp in milliseconds
  (an integer); `release_date` stores the timestamp of the parsed date string.
- JavaScript numbers appearing in ratings are modelled by rationals; the
  values the code manipulates (averages to one decimal) are exactly
  representable.
- Each widget's JSX output is modelled as a view structure holding exactly the
  data-dependent pieces of the markup (texts, badges, flags); static markup is
  not represented.
-/

namespace FilmSearch

/-- Genre record (types/api.ts): id, name, optional movies_count. -/
structure Genre where
  id : ℕ
  name : String
  movies_count : Option ℕ
deriving DecidableEq

/-- The two-valued content-type tag of a Movie (types/api.ts). -/
inductive MovieType where
  | movie
  | tv_show
deriving DecidableEq

/-- Movie record (types/api.ts). `release_date` is the epoch-millisecond
timestamp of the parsed release date. -/
structure Movie where
  id : ℕ
  title : String
  title_english : Option String
  release_date : ℤ
  type : MovieType
  description : String
  country : String
  poster_url : Option String
  poster_image : Option String
  avg_rating : Option ℚ
  ratings_count : Option ℕ
  genres : List Genre
deriving DecidableEq

/-- HomepageData aggregate (types/api.ts). -/
structure HomepageData where
  top_movies : List Movie
  popular_genres : List Genre
  new_releases : List Movie
  message : Option String
deriving DecidableEq

/-- Search parameters (types/api.ts); all fields optional. -/
structure SearchParams where
  q : Option String
  genre : Option String
  type : Option MovieType
  year : Option ℕ
deriving DecidableEq

/-- JavaScript truthiness of an optional string field: `undefined` and the
empty string are falsy. -/
def truthyStr : Option String → Bool
  | some s => s ≠ ""
  | none => false

/-- JavaScript truthiness of an optional numeric field: `undefined` and `0`
are falsy. -/
def truthyNum : Option ℚ → Bool
  | some q => q ≠ 0
  | none => false

/-! ### Poster resolution (getMovieImage in TopMoviesWidget / NewReleasesWidget)

Both widgets define the same three-way precedence and differ only in the
placeholder dimensions. -/

def topMoviesPlaceholder : String :=
  "https://via.placeholder.com/60x90/6c757d/ffffff?text=No+Image"

def newReleasesPlaceholder : String :=
  "https://via.placeholder.com/150x225/6c757d/ffffff?text=No+Image"

/-- getMovieImage (TopMoviesWidget.tsx): poster_image joined to the fixed
origin, else poster_url verbatim, else the placeholder. The `getD` arms are
only reached when the corresponding field is truthy. -/
def getMovieImageTop (m : Movie) : String :=
  if truthyStr m.poster_image then "http://localhost:8000" ++ m.poster_image.getD ""
  else if truthyStr m.poster_url then m.poster_url.getD ""
  else topMoviesPlaceholder

/-- getMovieImage (NewReleasesWidget.tsx): same precedence, larger placeholder. -/
def getMovieImageNew (m : Movie) : String :=
  if truthyStr m.poster_image then "http://localhost:8000" ++ m.poster_image.getD ""
  else if truthyStr m.poster_url then m.poster_url.getD ""
  else newReleasesPlaceholder

/-! ### Star rendering (renderStars in TopMoviesWidget) -/

/-- A string of n star glyphs, modelling `.repeat(n)` of one glyph. -/
def starRepeat (n : ℕ) : String :=
  String.mk (List.replicate n '⭐')

/-- renderStars (TopMoviesWidget.tsx): `Math.floor(rating)` full stars
(`fullStars`), plus one extra star appended when `rating % 1 >= 0.5`
(`hasHalfStar`). For the non-negative ratings the widget receives,
`rating % 1` is the floor fractional part. -/
def renderStars (rating : ℚ) : String :=
  if (1 : ℚ)/2 ≤ rating - Int.floor rating then (starRepeat (Int.floor rating).toNat).push '⭐'
  else starRepeat (Int.floor rating).toNat

/-- JavaScript `toFixed(1)` on a non-negative number: round to tenths (ties
up) and print with one decimal digit. -/
def jsToFixed1 (q : ℚ) : String :=
  let n : ℕ := (Int.floor (q * 10 + 1/2)).toNat
  toString (n / 10) ++ "." ++ toString (n % 10)

/-- The rating label text: `avg_rating.toFixed(1)` followed by
`ratings_count` in parentheses (an absent count interpolates as
"undefined", as JavaScript template literals do). -/
def ratingLabel (q : ℚ) (rc : Option ℕ) : String :=
  jsToFixed1 q ++ " (" ++ (match rc with | some n => toString n | none => "undefined") ++ ")"

/-! ### TopMoviesWidget rendering -/

/-- Title truncation used by NewReleasesWidget: over the cap, take the cap
and append the ellipsis marker. -/
def truncateTitle (cap : ℕ) (s : String) : String :=
  if s.length > cap then (s.take cap) ++ "..." else s

/-- The data-dependent content of one ranked-list item in TopMoviesWidget. -/
structure TopMovieItemView where
  rank : ℕ
  image : String
  title : String
  subtitle : Option String
  ratingBlock : Option (String × String)
  genreBadges : List String
deriving DecidableEq

/-- One ranked-list item (TopMoviesWidget.tsx map body): rank badge is
index+1; the English subtitle and the rating block are guarded by truthiness
of their optional fields; at most 3 genre badges. -/
def renderTopMovieItem (idx : ℕ) (m : Movie) : TopMovieItemView :=
  { rank := idx + 1
    image := getMovieImageTop m
    title := m.title
    subtitle := if truthyStr m.title_english then some (m.title_english.getD "") else none
    ratingBlock :=
      if truthyNum m.avg_rating then
        some (renderStars (m.avg_rating.getD 0), ratingLabel (m.avg_rating.getD 0) m.ratings_count)
      else none
    genreBadges := (m.genres.take 3).map (fun g => g.name) }

/-- TopMoviesWidget body: `movies.slice(0, 8).map(...)` with the running
index. -/
def renderTopMovies (movies : List Movie) : List TopMovieItemView :=
  (movies.take 8).mapIdx renderTopMovieItem

/-! ### PopularGenresWidget rendering -/

/-- `genre.movies_count || 0`: a missing count is taken as 0. -/
def countD (g : Genre) : ℕ :=
  g.movies_count.getD 0

/-- maxMoviesCount (PopularGenresWidget.tsx):
`Math.max(...genres.map(genre => genre.movies_count || 0))` over the whole
input list. The fold base -1 stands in for the -Infinity that `Math.max` of
an empty spread yields: counts are non-negative, so it never affects a
non-empty maximum, and like -Infinity it fails the `> 0` test below. -/
def maxMoviesCount (genres : List Genre) : ℚ :=
  (genres.map (fun g => (countD g : ℚ))).foldr max (-1)

/-- progressPercent (PopularGenresWidget.tsx):
`maxMoviesCount > 0 ? ((genre.movies_count || 0) / maxMoviesCount) * 100 : 0`. -/
def progressPercent (genres : List Genre) (g : Genre) : ℚ :=
  if 0 < maxMoviesCount genres then ((countD g : ℚ) / maxMoviesCount genres) * 100 else 0

/-- The icon dictionary of getGenreIcon, keyed by lower-cased genre name. -/
def genreIcons : List (String × String) :=
  [("драма", "🎭"), ("комедия", "😄"), ("боевик", "💥"), ("триллер", "😱"),
   ("фантастика", "🚀"), ("ужасы", "👻"), ("мелодрама", "💕"), ("детектив", "🔍"),
   ("фэнтези", "🧙‍♂️"), ("приключения", "🗺️"), ("военный", "⚔️"), ("история", "📜"),
   ("биография", "👤"), ("документальный", "📹"), ("мультфильм", "🎨"),
   ("семейный", "👨‍👩‍👧‍👦"), ("криминал", "🔫"), ("вестерн", "🤠"), ("спорт", "⚽"),
   ("музыка", "🎵")]

/-- getGenreIcon (PopularGenresWidget.tsx): dictionary lookup on the
lower-cased name with the default film icon as fallback. (`String.toLower`
models `toLowerCase`; the keys above are already lower-case, so the
difference on non-ASCII input does not affect any theorem below.) -/
def getGenreIcon (name : String) : String :=
  ((genreIcons.find? (fun p => p.1 = name.toLower)).map (fun p => p.2)).getD "🎬"

/-- The data-dependent content of one progress-list item in
PopularGenresWidget: icon, name, the "{count} фильмов" badge count, and the
progress percentage (shown both as the bar value and as the toFixed(1)
percent text). -/
structure GenreItemView where
  icon : String
  name : String
  countBadge : ℕ
  progress : ℚ
deriving DecidableEq

/-- One progress-list item (PopularGenresWidget.tsx map body). The
percentage divides by the maximum over the whole input list, not over the
displayed slice. -/
def renderGenreItem (genres : List Genre) (g : Genre) : GenreItemView :=
  { icon := getGenreIcon g.name
    name := g.name
    countBadge := countD g
    progress := progressPercent genres g }

/-- PopularGenresWidget body: `genres.slice(0, 10).map(...)`. -/
def renderPopularGenres (genres : List Genre) : List GenreItemView :=
  (genres.take 10).map (renderGenreItem genres)

/-! ### NewReleasesWidget rendering -/

def msPerDay : ℤ := 1000 * 60 * 60 * 24

/-- getDaysAgo (NewReleasesWidget.tsx):
`Math.ceil(Math.abs(today - releaseDate) / 86400000)`, with both dates as
epoch-millisecond timestamps. -/
def getDaysAgo (todayMs releaseMs : ℤ) : ℤ :=
  Int.ceil ((|todayMs - releaseMs| : ℚ) / (msPerDay : ℚ))

/-- getTypeIcon (NewReleasesWidget.tsx). -/
def getTypeIcon : MovieType → String
  | .movie => "🎬"
  | .tv_show => "📺"

/-- getTypeText (NewReleasesWidget.tsx). -/
def getTypeText : MovieType → String
  | .movie => "Фильм"
  | .tv_show => "Сериал"

/-- The data-dependent content of one grid cell in NewReleasesWidget. -/
structure NewReleaseCellView where
  image : String
  isNew : Bool
  typeBadge : String
  titleText : String
  subtitle : Option String
  releaseDateMs : ℤ
  genreBadges : List String
deriving DecidableEq

/-- One grid cell (NewReleasesWidget.tsx map body): the NEW badge is guarded
by `daysAgo <= 30`; titles are truncated at 20/25 characters; at most 2
genre badges. -/
def renderNewReleaseCell (todayMs : ℤ) (m : Movie) : NewReleaseCellView :=
  { image := getMovieImageNew m
    isNew := decide (getDaysAgo todayMs m.release_date ≤ 30)
    typeBadge := getTypeIcon m.type ++ " " ++ getTypeText m.type
    titleText := truncateTitle 20 m.title
    subtitle :=
      if truthyStr m.title_english then some (truncateTitle 25 (m.title_english.getD ""))
      else none
    releaseDateMs := m.release_date
    genreBadges := (m.genres.take 2).map (fun g => g.name) }

/-- NewReleasesWidget body: `movies.slice(0, 6).map(...)`. -/
def renderNewReleases (todayMs : ℤ) (movies : List Movie) : List NewReleaseCellView :=
  (movies.take 6).map (renderNewReleaseCell todayMs)

/-! ### HomePage lifecycle (HomePage.tsx)

The component state is the triple of useState hooks (data, loading, error).
Fetch completion (the code after the awaited API call, including the
try/catch/finally) is a pure state transformer on a fetch outcome; starting
a fetch sets loading and issues exactly one API call. -/

structure HPState where
  data : Option HomepageData
  loading : Bool
  error : Option String
deriving DecidableEq

/-- The initial hook values: data null, loading true, error null. -/
def initialState : HPState :=
  { data := none, loading := true, error := none }

/-- The single fixed user-facing failure message set in the catch block. -/
def errorMessage : String :=
  "Ошибка загрузки данных. Проверьте подключение к серверу."

/-- Outcome of one homepageAPI.getHomepageData() call: the response data, or
a rejection carrying an arbitrary error description. -/
inductive FetchResult where
  | ok (d : HomepageData)
  | err (e : String)
deriving DecidableEq

/-- fetchHomepageData completion: on success set data and clear error; on
any failure set the fixed error message (data untouched); either way the
finally block clears loading. -/
def applyFetchResult (s : HPState) : FetchResult → HPState
  | .ok d => { s with data := some d, error := none, loading := false }
  | .err _ => { s with error := some errorMessage, loading := false }

/-- Invoking fetchHomepageData (mount effect or the retry button's onClick):
`setLoading(true)` and exactly one `homepageAPI.getHomepageData()` call is
issued; the second component counts the API calls this invocation makes. -/
def startFetch (s : HPState) : HPState × ℕ :=
  ({ s with loading := true }, 1)

/-- The three counters derived from `data?.xxx?.length || 0` plus the fourth
"Всего фильмов" counter, which the code computes as
`(data?.top_movies?.length || 0) + (data?.new_releases?.length || 0)`. -/
def shellCounters (d : Option HomepageData) : ℕ × ℕ × ℕ × ℕ :=
  let t := match d with | some d => d.top_movies.length | none => 0
  let g := match d with | some d => d.popular_genres.length | none => 0
  let n := match d with | some d => d.new_releases.length | none => 0
  (t, g, n, t + n)

/-- The three render branches of HomePage: the loading spinner, the error
alert (fixed heading, message text, retry button), and the content view
with the three widgets and the four counters. -/
inductive HPView where
  | loadingView
  | errorView (message : String) (hasRetry : Bool)
  | contentView (top : List TopMovieItemView) (genres : List GenreItemView)
      (releases : List NewReleaseCellView) (counters : ℕ × ℕ × ℕ × ℕ)
deriving DecidableEq

/-- HomePage render: `if (loading) ... if (error) ...` then the widget
markup, each widget receiving `data?.xxx || []`. -/
def renderHomePage (todayMs : ℤ) (s : HPState) : HPView :=
  if s.loading then .loadingView
  else match s.error with
    | some msg => .errorView msg true
    | none =>
      .contentView
        (renderTopMovies (match s.data with | some d => d.top_movies | none => []))
        (renderPopularGenres (match s.data with | some d => d.popular_genres | none => []))
        (renderNewReleases todayMs (match s.data with | some d => d.new_releases | none => []))
        (shellCounters s.data)

/-- One scheduler event in the fetch lifecycle: a fetch invocation starts
(synchronous prefix of fetchHomepageData), or an outstanding call resolves
and its continuation runs. With no fetch token or cancellation in the code,
a resolution is applied to the state unconditionally, whichever invocation
it belongs to. -/
inductive HPEvent where
  | start
  | resolve (r : FetchResult)
deriving DecidableEq

def applyEvent (s : HPState) : HPEvent → HPState
  | .start => (startFetch s).1
  | .resolve r => applyFetchResult s r

/-- The state after an interleaved sequence of lifecycle events. -/
def runTrace (s : HPState) (es : List HPEvent) : HPState :=
  es.foldl applyEvent s

/-! ### SearchBar (common/SearchBar.tsx) -/

structure SearchState where
  query : String
  isSearching : Bool
deriving DecidableEq

/-- JavaScript `String.prototype.trim()`: drop whitespace from both ends.
`Char.isWhitespace` models the JavaScript whitespace class for the
characters the code encounters. -/
def jsTrim (s : String) : String :=
  String.mk (((s.data.dropWhile Char.isWhitespace).reverse.dropWhile Char.isWhitespace).reverse)

/-- handleSearch: an all-whitespace query returns before any state update or
request (`if (!searchQuery.trim()) return`, the empty string being falsy);
otherwise exactly one searchMovies request with the trimmed query is issued,
and the finally block leaves isSearching false. The second component lists
the API requests the invocation issues, in order. -/
def handleSearch (s : SearchState) : SearchState × List SearchParams :=
  if jsTrim s.query = "" then (s, [])
  else ({ s with isSearching := false },
        [{ q := some (jsTrim s.query), genre := none, type := none, year := none }])

/-! ### Spec-side definitions

These follow the specification's words (not the code) and are compared with
the code-derived definitions above. -/

/-- Day-delta per the spec glossary: the absolute difference in days between
the current date and the release date, as an exact quantity (both dates as
epoch-millisecond timestamps). -/
def dayDelta (todayMs releaseMs : ℤ) : ℚ :=
  (|todayMs - releaseMs| : ℚ) / (msPerDay : ℚ)

/-- The maximum movies_count among the displayed subset (the first at most
10 genres), per the claim's words; counts are non-negative so the fold base
0 is neutral. -/
def specMaxDisplayed (genres : List Genre) : ℚ :=
  ((genres.take 10).map (fun g => (countD g : ℚ))).foldr max 0

/-- The claimed progress percentage: 100 × count divided by the maximum
among the displayed subset, and 0 when that maximum is 0. -/
def specProgressDisplayed (genres : List Genre) (g : Genre) : ℚ :=
  if specMaxDisplayed genres = 0 then 0 else 100 * (countD g : ℚ) / specMaxDisplayed genres

/-- The maximum movies_count among all genres given to the widget. -/
def specMaxAll (genres : List Genre) : ℚ :=
  (genres.map (fun g => (countD g : ℚ))).foldr max 0

/-- The amended progress percentage: 100 × count divided by the maximum
among all genres given to the widget, and 0 when that maximum is 0. -/
def specProgressAll (genres : List Genre) (g : Genre) : ℚ :=
  if specMaxAll genres = 0 then 0 else 100 * (countD g : ℚ) / specMaxAll genres

/-- Extracts the fourth (Всего фильмов) counter from a rendered content
view. -/
def fourthCounter : HPView → Option ℕ
  | .contentView _ _ _ (_, _, _, x) => some x
  | _ => none

/-! ### Sample data for witnesses and counterexamples -/

/-- A movie with every optional field absent. -/
def mNone : Movie :=
  ⟨1, "T", none, 0, .movie, "", "RU", none, none, none, none, []⟩

/-- A genre with no movies_count. -/
def gNone : Genre := ⟨1, "g", none⟩

/-- A movie whose avg_rating is present but zero. -/
def mZeroRating : Movie :=
  ⟨2, "Z", none, 0, .movie, "", "RU", none, none, some 0, some 5, []⟩

/-- A movie with avg_rating 4.5 and 7 ratings. -/
def m45 : Movie :=
  ⟨3, "S", none, 0, .movie, "", "RU", none, none, some (9/2), some 7, []⟩

/-- A movie carrying both a local poster path and an external URL. -/
def mLocalPoster : Movie :=
  ⟨4, "L", none, 0, .movie, "", "RU", some "http://e/x.png", some "/p.png", none, none, []⟩

/-- A movie carrying only an external poster URL. -/
def mExtPoster : Movie :=
  ⟨5, "E", none, 0, .movie, "", "RU", some "http://e/x.png", none, none, none, []⟩

/-- Eleven genres where the largest count sits outside the displayed first
ten. -/
def genresSkew : List Genre :=
  [⟨1, "g1", some 1⟩, ⟨2, "g2", some 1⟩, ⟨3, "g3", some 1⟩, ⟨4, "g4", some 1⟩,
   ⟨5, "g5", some 1⟩, ⟨6, "g6", some 1⟩, ⟨7, "g7", some 1⟩, ⟨8, "g8", some 1⟩,
   ⟨9, "g9", some 1⟩, ⟨10, "g10", some 1⟩, ⟨11, "g11", some 100⟩]

/-- Homepage data with one genre and no movies. -/
def dOneGenre : HomepageData := ⟨[], [⟨1, "g", some 3⟩], [], none⟩

/-- Two distinguishable homepage payloads for the race trace. -/
def dRace1 : HomepageData := ⟨[], [], [], some "first"⟩

def dRace2 : HomepageData := ⟨[], [], [], some "second"⟩

/-! ### Helper lemmas -/

lemma starRepeat_length (n : ℕ) : (starRepeat n).length = n := by
  simp [starRepeat, String.length]

lemma specMaxAll_nonneg (genres : List Genre) : 0 ≤ specMaxAll genres := by
  induction genres with
  | nil => simp [specMaxAll]
  | cons g gs ih =>
    simp only [specMaxAll, List.map_cons, List.foldr_cons]
    exact le_trans ih (le_max_right _ _)

lemma maxMoviesCount_eq_specMaxAll (genres : List Genre) (h : genres ≠ []) :
    maxMoviesCount genres = specMaxAll genres := by
  induction genres with
  | nil => exact absurd rfl h
  | cons g gs ih =>
    cases gs with
    | nil =>
      simp only [maxMoviesCount, specMaxAll, List.map_cons, List.map_nil, List.foldr_cons,
        List.foldr_nil]
      have h0 : (0 : ℚ) ≤ (countD g : ℚ) := by positivity
      rw [max_eq_left (le_trans (by norm_num) h0), max_eq_left h0]
    | cons g₂ gs₂ =>
      simp only [maxMoviesCount, specMaxAll, List.map_cons, List.foldr_cons] at ih ⊢
      rw [ih (by simp)]

lemma progressPercent_eq_specProgressAll (genres : List Genre) (g : Genre) :
    progressPercent genres g = specProgressAll genres g := by
  rcases eq_or_ne genres [] with h | h
  · subst h
    simp [progressPercent, specProgressAll, maxMoviesCount, specMaxAll]
  · rw [progressPercent, specProgressAll, maxMoviesCount_eq_specMaxAll genres h]
    rcases lt_or_eq_of_le (specMaxAll_nonneg genres) with hpos | hzero
    · rw [if_pos hpos, if_neg (ne_of_gt hpos)]
      ring
    · rw [if_neg (by rw [← hzero]; exact lt_irrefl 0), if_pos hzero.symm]

/-! ### Claim theorems -/

/-- Claim C1: when the homepage fetch fails with any error, the view leaves
Loading and shows the failure alert with the single fixed message — the
same resulting state for every error kind — together with a retry control;
activating retry re-enters Loading and issues exactly one new fetch. -/
theorem fetch_failure_lifecycle (s : HPState) (e e₂ : String) (t : ℤ) :
    renderHomePage t (applyFetchResult s (.err e)) = .errorView errorMessage true ∧
    applyFetchResult s (.err e) = applyFetchResult s (.err e₂) ∧
    (startFetch (applyFetchResult s (.err e))).2 = 1 ∧
    renderHomePage t (startFetch (applyFetchResult s (.err e))).1 = .loadingView := by
  refine ⟨?_, rfl, rfl, ?_⟩ <;> simp [renderHomePage, applyFetchResult, startFetch]

/-- Claim C2: the code has no fetch token or cancellation, so when a fetch
issued earlier resolves after a later-issued one, its (stale) result
overwrites the later fetch's: after the trace start₁, start₂, resolve₂,
resolve₁ the displayed data is that of the first-issued fetch, not of the
most recently issued one. -/
theorem stale_fetch_overwrites_latest :
    (runTrace initialState
        [.start, .start, .resolve (.ok dRace2), .resolve (.ok dRace1)]).data = some dRace1 ∧
    dRace1 ≠ dRace2 := by
  exact ⟨rfl, by decide⟩

/-- Claim C3: for every successfully fetched HomepageData the rendered
ranked top-movies list has at most 8 entries, the genre progress list at
most 10, and the new-releases grid at most 6, whatever the source sequence
lengths. -/
theorem widget_display_caps (s : HPState) (d : HomepageData) (t : ℤ) :
    ∃ top gs ns cs,
      renderHomePage t (applyFetchResult s (.ok d)) = .contentView top gs ns cs ∧
      top.length ≤ 8 ∧ gs.length ≤ 10 ∧ ns.length ≤ 6 := by
  refine ⟨renderTopMovies d.top_movies, renderPopularGenres d.popular_genres,
    renderNewReleases t d.new_releases, shellCounters (some d), ?_, ?_, ?_, ?_⟩
  · simp [renderHomePage, applyFetchResult]
  · simp only [renderTopMovies, List.length_mapIdx, List.length_take]
    omega
  · simp only [renderPopularGenres, List.length_map, List.length_take]
    omega
  · simp only [renderNewReleases, List.length_map, List.length_take]
    omega

/-- Claim C4 counterexample: with eleven genres whose largest count sits in
position 11, the first displayed entry shows 1% (the code divides by the
maximum over all genres, here 100) while the claimed formula — dividing by
the maximum among the displayed first ten, here 1 — gives 100%. -/
theorem progress_divisor_counterexample :
    ((renderPopularGenres genresSkew).head?.map (fun v => v.progress)) = some 1 ∧
    ((genresSkew.take 10).map (specProgressDisplayed genresSkew)).head? = some 100 ∧
    (1 : ℚ) ≠ 100 := by
  refine ⟨?_, ?_, by norm_num⟩
  · simp only [renderPopularGenres, genresSkew, List.take_cons, List.map_cons, List.head?_cons,
      Option.map_some]
    norm_num [renderGenreItem, progressPercent, maxMoviesCount, countD, max_def]
  · simp only [genresSkew, List.take_cons, List.map_cons, List.head?_cons]
    norm_num [specProgressDisplayed, specMaxDisplayed, countD, max_def]

/-- Claim C4 amended: each displayed genre entry's progress percentage
equals 100 × its count divided by the maximum count among ALL genres given
to the widget (not just the displayed first ten), and 0 when that maximum
is 0. -/
theorem progress_percent_amended (genres : List Genre) :
    (renderPopularGenres genres).map (fun v => v.progress) =
      (genres.take 10).map (specProgressAll genres) := by
  simp only [renderPopularGenres, List.map_map]
  refine List.map_congr_left (fun g _ => ?_)
  exact progressPercent_eq_specProgressAll genres g

/-- Claim C5: the grid renders the first six movies, and a cell's NEW badge
appears iff the day-delta — the absolute difference in days between the
current date and the release date — is at most 30 (the code's
ceiling-of-days comparison is equivalent to comparing the exact delta). -/
theorem new_badge_iff_day_delta (t : ℤ) (movies : List Movie) :
    renderNewReleases t movies = (movies.take 6).map (renderNewReleaseCell t) ∧
    ∀ m : Movie, (renderNewReleaseCell t m).isNew = true ↔ dayDelta t m.release_date ≤ 30 := by
  refine ⟨rfl, fun m => ?_⟩
  have h : getDaysAgo t m.release_date = Int.ceil (dayDelta t m.release_date) := rfl
  simp only [renderNewReleaseCell, decide_eq_true_eq, h]
  constructor
  · intro hle
    have := (Int.ceil_le (α := ℚ)).mp hle
    exact_mod_cast this
  · intro hle
    exact (Int.ceil_le (α := ℚ)).mpr (by exact_mod_cast hle)

/-- Claim C6 counterexample: on a payload with one genre and no movies, the
fourth (Всего фильмов) counter shows 0, while the sum of the three sequence
lengths is 1 — the code omits popular_genres from the sum. -/
theorem total_counter_counterexample :
    fourthCounter (renderHomePage 0 (applyFetchResult initialState (.ok dOneGenre))) = some 0 ∧
    dOneGenre.top_movies.length + dOneGenre.popular_genres.length +
      dOneGenre.new_releases.length = 1 ∧
    (0 : ℕ) ≠ 1 := by
  refine ⟨rfl, rfl, by norm_num⟩

/-- Claim C6 amended: the first three counters are the lengths of
top_movies, popular_genres and new_releases, but the fourth equals the sum
of the top_movies and new_releases lengths only (popular_genres is not
included). -/
theorem shell_counters_amended (s : HPState) (d : HomepageData) (t : ℤ) :
    ∃ top gs ns,
      renderHomePage t (applyFetchResult s (.ok d)) =
        .contentView top gs ns
          (d.top_movies.length, d.popular_genres.length, d.new_releases.length,
           d.top_movies.length + d.new_releases.length) := by
  refine ⟨renderTopMovies d.top_movies, renderPopularGenres d.popular_genres,
    renderNewReleases t d.new_releases, ?_⟩
  simp [renderHomePage, applyFetchResult, shellCounters]

/-- Claim C7: each missing optional field degrades gracefully on its own,
whatever the other fields hold — a missing title_english omits the subtitle
in both movie widgets, a missing avg_rating omits the rating block, missing
poster references fall back to the placeholder, and a missing movies_count
shows as 0; each render function is total, so no widget fails. -/
theorem optional_fields_degrade (i : ℕ) (t : ℤ) (m : Movie) (gs : List Genre) (g : Genre) :
    (m.title_english = none →
      (renderTopMovieItem i m).subtitle = none ∧ (renderNewReleaseCell t m).subtitle = none) ∧
    (m.avg_rating = none → (renderTopMovieItem i m).ratingBlock = none) ∧
    (m.poster_image = none → m.poster_url = none →
      (renderTopMovieItem i m).image = topMoviesPlaceholder ∧
      (renderNewReleaseCell t m).image = newReleasesPlaceholder) ∧
    (g.movies_count = none → (renderGenreItem gs g).countBadge = 0) := by
  refine ⟨fun hte => ?_, fun har => ?_, fun hpi hpu => ?_, fun hmc => ?_⟩
  · simp [renderTopMovieItem, renderNewReleaseCell, truthyStr, hte]
  · simp [renderTopMovieItem, truthyNum, har]
  · simp [renderTopMovieItem, renderNewReleaseCell, getMovieImageTop, getMovieImageNew,
      truthyStr, hpi, hpu]
  · simp [renderGenreItem, countD, hmc]

/-- Witness for the graceful-degradation theorem, including a mixed
configuration: m45 misses only title_english while its rating is present,
mNone misses everything, and gNone has no count. -/
theorem optional_fields_degrade_witness :
    m45.title_english = none ∧ m45.avg_rating = some (9/2) ∧
    (renderTopMovieItem 0 m45).subtitle = none ∧
    (renderNewReleaseCell 0 m45).subtitle = none ∧
    mNone.avg_rating = none ∧ (renderTopMovieItem 0 mNone).ratingBlock = none ∧
    mNone.poster_image = none ∧ mNone.poster_url = none ∧
    (renderTopMovieItem 0 mNone).image = topMoviesPlaceholder ∧
    (renderNewReleaseCell 0 mNone).image = newReleasesPlaceholder ∧
    gNone.movies_count = none ∧ (renderGenreItem [] gNone).countBadge = 0 :=
  ⟨rfl, rfl,
   ((optional_fields_degrade 0 0 m45 [] gNone).1 rfl).1,
   ((optional_fields_degrade 0 0 m45 [] gNone).1 rfl).2,
   rfl, (optional_fields_degrade 0 0 mNone [] gNone).2.1 rfl,
   rfl, rfl,
   ((optional_fields_degrade 0 0 mNone [] gNone).2.2.1 rfl rfl).1,
   ((optional_fields_degrade 0 0 mNone [] gNone).2.2.1 rfl rfl).2,
   rfl, (optional_fields_degrade 0 0 mNone [] gNone).2.2.2 rfl⟩

/-- Claim C8 counterexample: a present avg_rating of 0 is falsy, so the
widget renders no rating block at all — no star glyphs and no "0.0 (5)"
label — contradicting the claim for a movie whose avg_rating is present. -/
theorem zero_rating_block_counterexample :
    mZeroRating.avg_rating = some 0 ∧ mZeroRating.ratings_count = some 5 ∧
    (renderTopMovieItem 0 mZeroRating).ratingBlock = none := by
  refine ⟨rfl, rfl, ?_⟩
  simp [renderTopMovieItem, truthyNum, mZeroRating]

/-- Claim C8 amended: for every movie whose avg_rating is present and
nonzero (zero is falsy and renders no rating block; ratings are
non-negative), the rating block shows floor(avg_rating) star glyphs plus
one more exactly when the fractional part is at least 0.5, labelled with
the rating to one decimal and ratings_count in parentheses. -/
theorem rating_block_rendering (i : ℕ) (m : Movie) (q : ℚ) (n : ℕ)
    (hq : m.avg_rating = some q) (hpos : 0 < q) (hn : m.ratings_count = some n) :
    (renderTopMovieItem i m).ratingBlock =
      some (renderStars q, jsToFixed1 q ++ " (" ++ toString n ++ ")") ∧
    ((renderStars q).length : ℤ) = ⌊q⌋ + (if (1 : ℚ)/2 ≤ q - ⌊q⌋ then 1 else 0) := by
  constructor
  · simp [renderTopMovieItem, truthyNum, hq, hn, hpos.ne', ratingLabel]
  · have hfl : (0 : ℤ) ≤ ⌊q⌋ := Int.floor_nonneg.mpr hpos.le
    rw [renderStars]
    by_cases hc : (1 : ℚ)/2 ≤ q - ⌊q⌋
    · rw [if_pos hc, if_pos hc, String.length_push, starRepeat_length]
      omega
    · rw [if_neg hc, if_neg hc, starRepeat_length]
      omega

/-- Witness: avg_rating 4.5 with 7 ratings renders five star glyphs and the
label "4.5 (7)". -/
theorem rating_block_rendering_witness :
    m45.avg_rating = some (9/2) ∧ (0 : ℚ) < 9/2 ∧ m45.ratings_count = some 7 ∧
    (renderTopMovieItem 0 m45).ratingBlock = some ("⭐⭐⭐⭐⭐", "4.5 (7)") ∧
    (renderStars (9/2)).length = 5 := by
  have h := rating_block_rendering 0 m45 (9/2) 7 rfl (by norm_num) rfl
  have hfloor : (⌊(9 : ℚ)/2⌋ : ℤ) = 4 := by norm_num
  have hstars : renderStars (9/2) = "⭐⭐⭐⭐⭐" := by
    rw [renderStars, if_pos (by rw [hfloor]; norm_num), hfloor]
    decide
  have hfix : jsToFixed1 (9/2) = "4.5" := by
    have h45 : (⌊(9 : ℚ)/2 * 10 + 1/2⌋ : ℤ) = 45 := by norm_num
    simp only [jsToFixed1, h45]
    decide
  refine ⟨rfl, by norm_num, rfl, ?_, by rw [hstars]; decide⟩
  rw [h.1, hstars, hfix]
  decide

/-- Claim C9: poster resolution follows the three-way precedence in both
widgets — a (truthy) local poster path is joined to the fixed asset-server
origin; otherwise a (truthy) external URL is used verbatim; otherwise the
widget's fixed placeholder URL is substituted. -/
theorem poster_resolution (m : Movie) :
    (∀ p, m.poster_image = some p → p ≠ "" →
        getMovieImageTop m = "http://localhost:8000" ++ p ∧
        getMovieImageNew m = "http://localhost:8000" ++ p) ∧
    (truthyStr m.poster_image = false → ∀ u, m.poster_url = some u → u ≠ "" →
        getMovieImageTop m = u ∧ getMovieImageNew m = u) ∧
    (truthyStr m.poster_image = false → truthyStr m.poster_url = false →
        getMovieImageTop m = topMoviesPlaceholder ∧
        getMovieImageNew m = newReleasesPlaceholder) := by
  refine ⟨?_, ?_, ?_⟩
  · intro p hp hne
    simp [getMovieImageTop, getMovieImageNew, truthyStr, hp, hne]
  · intro hfi u hu hne
    have h2 : truthyStr m.poster_url = true := by rw [hu]; simp [truthyStr, hne]
    simp [getMovieImageTop, getMovieImageNew, hfi, h2, hu]
    simp [truthyStr, hne]
  · intro hfi hfu
    simp [getMovieImageTop, getMovieImageNew, hfi, hfu]

/-- Witness for poster resolution: a local path wins over a present
external URL, an external URL alone is used verbatim, and with neither the
placeholder appears. -/
theorem poster_resolution_witness :
    getMovieImageTop mLocalPoster = "http://localhost:8000/p.png" ∧
    getMovieImageNew mExtPoster = "http://e/x.png" ∧
    getMovieImageTop mNone = topMoviesPlaceholder := by
  refine ⟨?_, ?_, ?_⟩
  · rw [((poster_resolution mLocalPoster).1 "/p.png" rfl (by decide)).1]
    decide
  · exact ((poster_resolution mExtPoster).2.1 (by decide) "http://e/x.png" rfl (by decide)).2
  · exact ((poster_resolution mNone).2.2 (by decide) (by decide)).1

/-- Claim C10: submitting an all-whitespace query issues no search request
and leaves the component state unchanged; a query with a non-whitespace
character issues exactly one request carrying the trimmed query. -/
theorem search_submission_guard (s : SearchState) :
    (jsTrim s.query = "" → handleSearch s = (s, [])) ∧
    (jsTrim s.query ≠ "" →
      (handleSearch s).2 =
        [{ q := some (jsTrim s.query), genre := none, type := none, year := none }]) := by
  constructor
  · intro h
    simp [handleSearch, h]
  · intro h
    simp [handleSearch, h]

/-- Witness: the whitespace-only query "   " is ignored with state
untouched, while "  ab " issues one request with query "ab". -/
theorem search_submission_guard_witness :
    jsTrim "   " = "" ∧
    handleSearch ⟨"   ", false⟩ = (⟨"   ", false⟩, []) ∧
    jsTrim "  ab " ≠ "" ∧
    (handleSearch ⟨"  ab ", false⟩).2 =
      [{ q := some "ab", genre := none, type := none, year := none }] := by
  refine ⟨by decide, (search_submission_guard ⟨"   ", false⟩).1 (by decide), by decide, ?_⟩
  rw [(search_submission_guard ⟨"  ab ", false⟩).2 (by decide)]
  decide

end FilmSearch
